import Mathlib

/-!
Shallow embedding of src/systemctl/__init__.py.

The module defines a single class Service around a cached ServiceState
plus two derived booleans, a worker thread, a shutdown flag, a two-party
barrier and a lock.  The embedding translates each method into a pure
Lean function over an explicit environment describing the outcomes of
the external interactions (process spawn, lock acquisition, barrier
rendezvous, thread liveness), and represents the side effects relevant
to the verified properties as event traces.
-/

/-- The state enum of lines 8-12. -/
inductive ServiceState
  | ACTIVE
  | INACTIVE
  | FAILED
  | OTHER
  deriving DecidableEq, BEq, Repr

/-- The cached fields _state, _is_active and _is_failed (lines 19-21),
grouped as the snapshot the reading side observes. -/
structure Snapshot where
  state : ServiceState
  is_active : Bool
  is_failed : Bool
  deriving DecidableEq, BEq, Repr

/-- The initial cache set by the constructor (lines 19-21). -/
def initSnapshot : Snapshot :=
  { state := ServiceState.OTHER, is_active := false, is_failed := false }

/-- A Python exception escaping a method: nothing in the source catches
a spawn failure of subprocess.Popen, which raises OSError or
FileNotFoundError when the executable cannot be started. -/
inductive PyExn
  | fileNotFoundError
  deriving DecidableEq, Repr

/-- Outcome of spawning and running the external probe command
(systemctl is-active NAME): either Popen itself raises, or the process
runs to completion with some stdout text and an exit status. -/
inductive ProbeOutcome
  | spawnError
  | ran (stdout : String) (exitCode : Int)
  deriving DecidableEq, Repr

/-- The second component of the pair returned by communicate() on
line 72.  The probe process is opened with stdout = PIPE only, so the
stderr stream is not captured and communicate() always returns None
for it; the exit status is never part of this value. -/
def communicateStderr : Option Int := none

/-- The whitespace characters removed by the Python str.strip method. -/
def isPySpace (c : Char) : Bool :=
  c == ' ' || c == '\t' || c == '\n' || c == '\x0b' || c == '\x0c' || c == '\r'

/-- The Python str.strip method: remove leading and trailing
whitespace. -/
def pyStrip (s : String) : String :=
  String.mk (((s.data.dropWhile isPySpace).reverse.dropWhile isPySpace).reverse)

/-- The Python str.lower method on the ASCII range. -/
def pyLower (s : String) : String :=
  String.mk (s.data.map Char.toLower)

/-- The stdout classification of lines 75-85: decode (total, decoding
errors are replaced), strip, lower-case, and map the recognised words;
anything else becomes OTHER. -/
def classifyOutput (raw : String) : ServiceState :=
  let output_string := pyLower (pyStrip raw)
  if output_string = "active" then ServiceState.ACTIVE
  else if output_string = "inactive" then ServiceState.INACTIVE
  else if output_string = "failed" then ServiceState.FAILED
  else ServiceState.OTHER

/-- Callback invocations observable from the poll loop: on_state with
its boolean argument, and on_fail. -/
inductive CallbackEvent
  | onState (isActive : Bool)
  | onFail
  deriving DecidableEq, Repr

/-- Synchronisation actions the methods perform, with their timeout
arguments in seconds. -/
inductive SyncEvent
  | lockAcquire (timeoutSeconds : Nat)
  | threadStart
  | barrierWait (timeoutSeconds : Nat)
  | lockRelease
  | threadJoin (timeoutSeconds : Nat)
  deriving DecidableEq, Repr

/-- Outcomes of the environment interactions inside _check_thread
(lines 35-46): whether acquire(blocking = True, timeout = 4) obtained
the lock within its bound, whether the worker thread was alive, and
whether the barrier wait(2) completed rather than raising
BrokenBarrierError. -/
structure CheckEnv where
  lockAcquired : Bool
  threadAlive : Bool
  barrierOk : Bool
  deriving DecidableEq, Repr

/-- Runtime view of the fields Service.close touches. -/
structure ServiceRt where
  shutdown : Bool
  threadAlive : Bool
  deriving DecidableEq, Repr

/-- The object state established by the constructor (lines 16-28): the
cache defaults, the shutdown flag, a Thread object that is created but
never started, and a barrier with two parties. -/
structure ServiceObj where
  service_name : String
  snapshot : Snapshot
  shutdown : Bool
  threadStarted : Bool
  barrierParties : Nat
  deriving DecidableEq, Repr

/-- Completion behaviour of a spawned control process: how many seconds
until it exits, and with what status. -/
structure ProcRun where
  completionSeconds : Nat
  exitCode : Int
  deriving DecidableEq, Repr

/-- Result of Popen.wait(timeout): the exit status if the process
finishes within the bound, otherwise subprocess.TimeoutExpired. -/
inductive WaitOutcome
  | exited (code : Int)
  | timedOut
  deriving DecidableEq, Repr

/-- Popen.wait with a timeout in seconds. -/
def procWait (timeoutSeconds : Nat) (p : ProcRun) : WaitOutcome :=
  if p.completionSeconds ≤ timeoutSeconds then WaitOutcome.exited p.exitCode
  else WaitOutcome.timedOut

/-- Control-flow events of a run of _update_loop (lines 89-109). -/
inductive LoopEvent
  | checkFlag (value : Bool)
  | rendezvous
  | probe
  | sleepHalfSecond
  deriving DecidableEq, Repr

/-- Number of probe invocations in a loop trace. -/
def probeCount : List LoopEvent → Nat
  | [] => 0
  | LoopEvent.probe :: rest => probeCount rest + 1
  | _ :: rest => probeCount rest

/-- Number of reads of the shutdown flag in a loop trace. -/
def flagCheckCount : List LoopEvent → Nat
  | [] => 0
  | LoopEvent.checkFlag _ :: rest => flagCheckCount rest + 1
  | _ :: rest => flagCheckCount rest

/-- The invariant a reader expects of the cache: each derived boolean
agrees with the cached enum value. -/
def snapshotConsistent (s : Snapshot) : Bool :=
  (s.is_active == (s.state == ServiceState.ACTIVE)) &&
  (s.is_failed == (s.state == ServiceState.FAILED))

namespace Service

/-- Service.__init__ (lines 16-28): record the unit name, set the cache
to OTHER/False/False, create (but never start) the update thread, clear
the shutdown flag, and create the two-party barrier and the lock. -/
def init (name : String) : ServiceObj :=
  { service_name := name,
    snapshot := initSnapshot,
    shutdown := false,
    threadStarted := false,
    barrierParties := 2 }

/-- Service._get_state (lines 69-87).  A spawn failure of Popen is not
caught anywhere and propagates as an exception; otherwise the pair
(output, error) returned by communicate() is examined, where error is
the uncaptured stderr stream (always None), and the state is classified
from the stdout text. -/
def get_state (o : ProbeOutcome) : Except PyExn ServiceState :=
  match o with
  | ProbeOutcome.spawnError => Except.error PyExn.fileNotFoundError
  | ProbeOutcome.ran stdout _exitCode =>
      let error := communicateStderr
      if error = none ∨ error = some 0 then
        Except.ok (classifyOutput stdout)
      else
        Except.ok ServiceState.OTHER

/-- One iteration body of Service._update_loop (lines 96-107) given the
state the probe returned: derive the two booleans, fire the
edge-triggered callbacks (line 100 before line 102, so on_state is
emitted before on_fail within an iteration) and commit the three
fields. -/
def loopStep (snap : Snapshot) (new_state : ServiceState) :
    Snapshot × List CallbackEvent :=
  let is_active := new_state == ServiceState.ACTIVE
  let is_failed := new_state == ServiceState.FAILED
  let stateEvents :=
    if is_active != snap.is_active then [CallbackEvent.onState is_active] else []
  let failEvents :=
    if is_failed && !snap.is_failed then [CallbackEvent.onFail] else []
  ({ state := new_state, is_active := is_active, is_failed := is_failed },
   stateEvents ++ failEvents)

/-- The shared fields as a concurrent reader may observe them while the
commit of lines 105-107 is in progress: the three assignments are
separate statements and no lock is held around them, so a reader can
see the cache after any prefix of the writes. -/
def commitIntermediates (old : Snapshot) (new_state : ServiceState) : List Snapshot :=
  let is_active := new_state == ServiceState.ACTIVE
  let is_failed := new_state == ServiceState.FAILED
  [old,
   { old with state := new_state },
   { old with state := new_state, is_active := is_active },
   { state := new_state, is_active := is_active, is_failed := is_failed }]

/-- Run successive iterations of the loop body over a scripted probe
sequence, tagging every callback with the index of the sample that
triggered it (the first sample has index i). -/
def runScript (snap : Snapshot) (i : Nat) :
    List ServiceState → Snapshot × List (Nat × CallbackEvent)
  | [] => (snap, [])
  | s :: rest =>
      let step := loopStep snap s
      let tail := runScript step.1 (i + 1) rest
      (tail.1, step.2.map (fun e => (i, e)) ++ tail.2)

/-- Service._check_thread (lines 35-46).  return_value starts True; the
boolean result of the lock acquire on line 37 is discarded; if the
update thread is not alive, a fresh Thread is created and started and
the barrier is waited on with a 2 second bound, a BrokenBarrierError
setting return_value to False; finally the lock is released and
return_value returned. -/
def check_thread (env : CheckEnv) : Bool × List SyncEvent :=
  if !env.threadAlive then
    (env.barrierOk,
     [SyncEvent.lockAcquire 4, SyncEvent.threadStart, SyncEvent.barrierWait 2,
      SyncEvent.lockRelease])
  else
    (true, [SyncEvent.lockAcquire 4, SyncEvent.lockRelease])

/-- The state property (lines 48-53). -/
def state (env : CheckEnv) (snap : Snapshot) : ServiceState :=
  if (check_thread env).1 then snap.state else ServiceState.OTHER

/-- The is_active property (lines 55-60). -/
def is_active (env : CheckEnv) (snap : Snapshot) : Bool :=
  if (check_thread env).1 then snap.is_active else false

/-- The is_failed property (lines 62-67). -/
def is_failed (env : CheckEnv) (snap : Snapshot) : Bool :=
  if (check_thread env).1 then snap.is_failed else false

/-- Service.close (lines 30-33): set the shutdown flag; if the update
thread exists and is alive, join it with a 2 second timeout.
Thread.join(timeout) returns normally even when the timeout elapses;
joinCompletes records whether the worker actually terminated within the
bound. -/
def close (joinCompletes : Bool) (s : ServiceRt) : ServiceRt × List SyncEvent :=
  if s.threadAlive then
    ({ shutdown := true, threadAlive := !joinCompletes }, [SyncEvent.threadJoin 2])
  else
    ({ shutdown := true, threadAlive := s.threadAlive }, [])

/-- Service.start (lines 111-117): spawn the control command, wait up
to 4 seconds, return True exactly on exit status 0; TimeoutExpired is
caught and yields False.  The first component is the argv issued. -/
def start (name : String) (p : ProcRun) : List String × Bool :=
  (["sudo", "systemctl", "start", name],
   match procWait 4 p with
   | WaitOutcome.exited ret_code => ret_code == 0
   | WaitOutcome.timedOut => false)

/-- Service.stop (lines 119-125), identical to start apart from the
command word. -/
def stop (name : String) (p : ProcRun) : List String × Bool :=
  (["sudo", "systemctl", "stop", name],
   match procWait 4 p with
   | WaitOutcome.exited ret_code => ret_code == 0
   | WaitOutcome.timedOut => false)

/-- Service.restart (lines 127-133), identical to start apart from the
command word. -/
def restart (name : String) (p : ProcRun) : List String × Bool :=
  (["sudo", "systemctl", "restart", name],
   match procWait 4 p with
   | WaitOutcome.exited ret_code => ret_code == 0
   | WaitOutcome.timedOut => false)

/-- The control flow of Service._update_loop (lines 89-109): the
shutdown flag is read exactly once per iteration, at the top (line 90);
a full iteration then performs the barrier rendezvous of lines 91-94,
one probe together with the callback and commit work of lines 96-107,
and the 0.5 second sleep of line 109.  flag k gives the value of the
shutdown field as observed at the top of iteration k (the flag is
written by other threads); fuel bounds the length of the run so the
function is total. -/
def update_loop (flag : Nat → Bool) : Nat → Nat → List LoopEvent
  | 0, _ => []
  | fuel + 1, k =>
      if flag k then [LoopEvent.checkFlag true]
      else
        LoopEvent.checkFlag false :: LoopEvent.rendezvous :: LoopEvent.probe ::
          LoopEvent.sleepHalfSecond :: update_loop flag fuel (k + 1)

end Service

/-- The scripted probe sequence of property P2. -/
def scriptedSequence : List ServiceState :=
  [ServiceState.INACTIVE, ServiceState.ACTIVE, ServiceState.ACTIVE,
   ServiceState.FAILED, ServiceState.FAILED, ServiceState.ACTIVE]

section Helpers

/-- The probe classifies from stdout alone whenever the process
spawned: the checked error value is the uncaptured stderr, always
None, so the guard on line 74 always takes its first branch. -/
lemma get_state_ran (stdout : String) (code : Int) :
    Service.get_state (ProbeOutcome.ran stdout code) =
      Except.ok (classifyOutput stdout) := by
  simp [Service.get_state, communicateStderr]

/-- Unrecognised stdout text is classified as OTHER. -/
lemma classifyOutput_other (s : String)
    (h1 : pyLower (pyStrip s) ≠ "active") (h2 : pyLower (pyStrip s) ≠ "inactive")
    (h3 : pyLower (pyStrip s) ≠ "failed") :
    classifyOutput s = ServiceState.OTHER := by
  simp [classifyOutput, h1, h2, h3]

/-- Once the shutdown flag reads true at some iteration index, the loop
performs at most that many further probes. -/
lemma probeCount_update_loop_le (flag : Nat → Bool) :
    ∀ (fuel i k : Nat), i ≤ k → flag k = true →
      probeCount (Service.update_loop flag fuel i) ≤ k - i := by
  intro fuel
  induction fuel with
  | zero => intro i k _ _; simp [Service.update_loop, probeCount]
  | succ n ih =>
      intro i k hik hk
      by_cases hfi : flag i
      · simp [Service.update_loop, hfi, probeCount]
      · have hne : i ≠ k := by
          intro h
          rw [h] at hfi
          exact hfi hk
        have hik2 : i + 1 ≤ k := Nat.lt_of_le_of_ne hik hne
        have hrec := ih (i + 1) k hik2 hk
        simp only [Service.update_loop, hfi, if_neg, Bool.false_eq_true,
          not_false_iff, probeCount]
        omega

/-- Once the shutdown flag reads true at some iteration index, the loop
reads the flag at most once more than that many times. -/
lemma flagCheckCount_update_loop_le (flag : Nat → Bool) :
    ∀ (fuel i k : Nat), i ≤ k → flag k = true →
      flagCheckCount (Service.update_loop flag fuel i) ≤ k - i + 1 := by
  intro fuel
  induction fuel with
  | zero => intro i k _ _; simp [Service.update_loop, flagCheckCount]
  | succ n ih =>
      intro i k hik hk
      by_cases hfi : flag i
      · simp [Service.update_loop, hfi, flagCheckCount]
      · have hne : i ≠ k := by
          intro h
          rw [h] at hfi
          exact hfi hk
        have hik2 : i + 1 ≤ k := Nat.lt_of_le_of_ne hik hne
        have hrec := ih (i + 1) k hik2 hk
        simp only [Service.update_loop, hfi, if_neg, Bool.false_eq_true,
          not_false_iff, flagCheckCount]
        omega

end Helpers

/-- Claim C2 (confirmed): on the scripted probe sequence
[Inactive, Active, Active, Failed, Failed, Active] starting from the
initial cache, the loop fires on_state exactly when is_active flips
(after sample 2 with true, after sample 4 with false, after sample 6
with true) and fires on_fail exactly once, at sample 4, never again on
the repeated Failed sample. -/
theorem c2_edge_triggered_callbacks :
    (Service.runScript initSnapshot 1 scriptedSequence).2 =
      [(2, CallbackEvent.onState true), (4, CallbackEvent.onState false),
       (4, CallbackEvent.onFail), (6, CallbackEvent.onState true)] ∧
    (Service.runScript initSnapshot 1 scriptedSequence).2.countP
        (fun e => e.2 == CallbackEvent.onFail) = 1 := by
  decide

/-- A cache state a concurrent reader can observe after the write of
line 105 but before the write of line 106. -/
def tornSnapshot : Snapshot :=
  { state := ServiceState.ACTIVE, is_active := false, is_failed := false }

/-- Counterexample to claim C1: starting from the initial cache, while
the loop commits an ACTIVE sample, the intermediate state after the
first of the three unlocked field writes is observable and violates
is_active = (state = ACTIVE), so a reader interleaved with the commit
can see a partial update. -/
theorem c1_torn_commit_counterexample :
    tornSnapshot ∈ Service.commitIntermediates initSnapshot ServiceState.ACTIVE ∧
    snapshotConsistent tornSnapshot = false :=
  ⟨List.Mem.tail _ (List.Mem.head _), rfl⟩

/-- Claim C1 (amended): the poll loop commits state, is_active and
is_failed as three separate field writes with no lock held, so a
concurrent reader may observe a torn update; only once all three writes
of an iteration have completed does the cache again satisfy
is_active = (state = ACTIVE) and is_failed = (state = FAILED). -/
theorem c1_snapshot_consistent_after_full_commit
    (old : Snapshot) (s : ServiceState) :
    (Service.commitIntermediates old s).getLast? = some (Service.loopStep old s).1 ∧
    snapshotConsistent (Service.loopStep old s).1 = true := by
  cases s <;> exact ⟨rfl, rfl⟩

/-- Counterexample to claim C3: a process spawn failure is not caught
anywhere in _get_state and escapes as an exception instead of being
mapped to OTHER, and a run with non-zero exit status whose stdout reads
inactive is classified as INACTIVE, not mapped to OTHER by the exit
check. -/
theorem c3_probe_exception_counterexample :
    Service.get_state ProbeOutcome.spawnError =
      Except.error PyExn.fileNotFoundError ∧
    Service.get_state (ProbeOutcome.ran "inactive" 3) =
      Except.ok ServiceState.INACTIVE := by
  refine ⟨rfl, ?_⟩
  rw [get_state_ran,
    show classifyOutput "inactive" = ServiceState.INACTIVE from by decide]

/-- Claim C3 (amended): once the external process has spawned, the
probe never raises: for every stdout text and every exit status the
result is the classification of the stdout text (the exit status is
never consulted), and stdout that matches none of the recognised words
is mapped to OTHER; a spawn failure of Popen, however, is not caught
and propagates out of the loop. -/
theorem c3_probe_total_after_spawn (stdout : String) (code : Int) :
    Service.get_state (ProbeOutcome.ran stdout code) =
      Except.ok (classifyOutput stdout) ∧
    (pyLower (pyStrip stdout) ≠ "active" → pyLower (pyStrip stdout) ≠ "inactive" →
      pyLower (pyStrip stdout) ≠ "failed" →
      Service.get_state (ProbeOutcome.ran stdout code) =
        Except.ok ServiceState.OTHER) := by
  refine ⟨get_state_ran stdout code, fun h1 h2 h3 => ?_⟩
  rw [get_state_ran, classifyOutput_other stdout h1 h2 h3]

/-- Witness for the amended claim C3 at a concrete garbled output with
a non-zero exit status. -/
theorem c3_probe_total_after_spawn_witness :
    Service.get_state (ProbeOutcome.ran "garbled" 7) =
      Except.ok ServiceState.OTHER :=
  (c3_probe_total_after_spawn "garbled" 7).2 (by decide) (by decide) (by decide)

/-- Claim C10 (confirmed): the value tested by the exit-status check of
line 74 is the stderr stream returned by communicate(), which is always
None because stderr is not captured, so the guard always succeeds, the
else branch is unreachable, and the classification depends solely on
the stripped lower-cased stdout text; in particular a run with exit
status 3 but stdout inactive is classified INACTIVE, not OTHER. -/
theorem c10_exit_check_ineffective :
    communicateStderr = none ∧
    (∀ (stdout : String) (code : Int),
      Service.get_state (ProbeOutcome.ran stdout code) =
        Except.ok (classifyOutput stdout)) ∧
    Service.get_state (ProbeOutcome.ran "inactive" 3) =
      Except.ok ServiceState.INACTIVE ∧
    Service.get_state (ProbeOutcome.ran "inactive" 3) ≠
      Except.ok ServiceState.OTHER := by
  refine ⟨rfl, fun stdout code => get_state_ran stdout code,
    by rw [get_state_ran,
      show classifyOutput "inactive" = ServiceState.INACTIVE from by decide], ?_⟩
  intro h
  rw [get_state_ran] at h
  have h2 : classifyOutput "inactive" = ServiceState.OTHER := Except.ok.inj h
  rw [show classifyOutput "inactive" = ServiceState.INACTIVE from by decide] at h2
  cases h2

/-- Counterexample to claim C4: with the worker alive, when the lock
acquire of line 37 times out, _check_thread still returns True — the
boolean result of acquire is discarded, so a lock-acquisition timeout
is not treated as failure and does not make the call return false. -/
theorem c4_lock_timeout_counterexample :
    (CheckEnv.mk false true true).lockAcquired = false ∧
    (Service.check_thread (CheckEnv.mk false true true)).1 = true := by
  decide

/-- Claim C4 (amended): _check_thread waits on the lock with a bounded
4 second timeout and never blocks forever, and the release on line 45
is reached on every exit path as the last synchronisation action; but
the result of the acquire is discarded, so a lock-acquisition timeout
is not treated as failure: the call returns false exactly when the
worker was dead and the barrier rendezvous failed, independently of
whether the lock was obtained. -/
theorem c4_check_thread_release_and_result (env : CheckEnv) :
    (Service.check_thread env).1 = (env.threadAlive || env.barrierOk) ∧
    SyncEvent.lockAcquire 4 ∈ (Service.check_thread env).2 ∧
    (Service.check_thread env).2.getLast? = some SyncEvent.lockRelease ∧
    (Service.check_thread (CheckEnv.mk false env.threadAlive env.barrierOk)).1 =
      (Service.check_thread (CheckEnv.mk true env.threadAlive env.barrierOk)).1 := by
  rcases env with ⟨l, a, b⟩
  cases l <;> cases a <;> cases b <;>
    exact ⟨rfl, List.Mem.head _, rfl, rfl⟩

/-- Claim C5 (confirmed): each read accessor calls _check_thread; on
success it returns the corresponding cached field, on failure the
degraded default OTHER, false or false, and the accessors are total. -/
theorem c5_accessors_degrade (env : CheckEnv) (snap : Snapshot) :
    ((Service.check_thread env).1 = true →
      Service.state env snap = snap.state ∧
      Service.is_active env snap = snap.is_active ∧
      Service.is_failed env snap = snap.is_failed) ∧
    ((Service.check_thread env).1 = false →
      Service.state env snap = ServiceState.OTHER ∧
      Service.is_active env snap = false ∧
      Service.is_failed env snap = false) := by
  constructor
  · intro h
    exact ⟨by simp [Service.state, h], by simp [Service.is_active, h],
      by simp [Service.is_failed, h]⟩
  · intro h
    exact ⟨by simp [Service.state, h], by simp [Service.is_active, h],
      by simp [Service.is_failed, h]⟩

/-- Witness for claim C5: with a healthy worker the state accessor
returns the cached ACTIVE, and with a dead worker and broken rendezvous
it degrades to OTHER. -/
theorem c5_accessors_degrade_witness :
    Service.state (CheckEnv.mk true true true)
      (Snapshot.mk ServiceState.ACTIVE true false) = ServiceState.ACTIVE ∧
    Service.state (CheckEnv.mk true false false)
      (Snapshot.mk ServiceState.ACTIVE true false) = ServiceState.OTHER :=
  ⟨((c5_accessors_degrade (CheckEnv.mk true true true)
      (Snapshot.mk ServiceState.ACTIVE true false)).1 (by decide)).1,
   ((c5_accessors_degrade (CheckEnv.mk true false false)
      (Snapshot.mk ServiceState.ACTIVE true false)).2 (by decide)).1⟩

/-- Claim C6 (confirmed): start, stop and restart issue the matching
external control command, wait at most 4 seconds, and return true
exactly when the command completes within the bound with exit status 0;
a timeout and a non-zero exit status both yield false, and all three
operations behave identically on the same process run. -/
theorem c6_control_ops (name : String) (p : ProcRun) :
    (Service.start name p).1 = ["sudo", "systemctl", "start", name] ∧
    (Service.stop name p).1 = ["sudo", "systemctl", "stop", name] ∧
    (Service.restart name p).1 = ["sudo", "systemctl", "restart", name] ∧
    ((Service.start name p).2 = true ↔ p.completionSeconds ≤ 4 ∧ p.exitCode = 0) ∧
    (Service.stop name p).2 = (Service.start name p).2 ∧
    (Service.restart name p).2 = (Service.start name p).2 := by
  refine ⟨rfl, rfl, rfl, ?_, rfl, rfl⟩
  by_cases h : p.completionSeconds ≤ 4 <;>
    simp [Service.start, procWait, h]

/-- Witness for claim C6: a run that exits with status 0 after one
second makes start return true. -/
theorem c6_control_ops_witness :
    (Service.start "nginx" (ProcRun.mk 1 0)).2 = true :=
  (c6_control_ops "nginx" (ProcRun.mk 1 0)).2.2.2.1.mpr ⟨by decide, rfl⟩

/-- Claim C7 (confirmed): close sets the shutdown flag and joins the
worker only with a bounded 2 second timeout; it is total, so it does
not raise, even when called twice in a row, when the worker never
started (no join is attempted), or when the join times out, which is
not escalated; a second close after a completed join is a no-op. -/
theorem c7_close_idempotent (s : ServiceRt) (j1 j2 : Bool) :
    ((Service.close j1 s).1).shutdown = true ∧
    ((Service.close j2 (Service.close j1 s).1).1).shutdown = true ∧
    (s.threadAlive = false → (Service.close j1 s).2 = []) ∧
    (∀ e ∈ (Service.close j1 s).2, e = SyncEvent.threadJoin 2) ∧
    (j1 = true →
      (Service.close j2 (Service.close j1 s).1).1 = (Service.close j1 s).1 ∧
      (Service.close j2 (Service.close j1 s).1).2 = []) := by
  rcases s with ⟨sd, ta⟩
  cases sd <;> cases ta <;> cases j1 <;> cases j2 <;> decide

/-- Witness for claim C7: closing an idle, never-started service twice
keeps the shutdown flag set and performs no join. -/
theorem c7_close_idempotent_witness :
    ((Service.close true (ServiceRt.mk false true)).1).shutdown = true ∧
    (Service.close true (ServiceRt.mk false false)).2 = [] :=
  ⟨(c7_close_idempotent (ServiceRt.mk false true) true true).1,
   (c7_close_idempotent (ServiceRt.mk false false) true true).2.2.1 rfl⟩

/-- Claim C8 (confirmed): the loop reads the shutdown flag once per
iteration at the top; if the flag reads true at iteration k, the whole
run performs at most k probes and at most k + 1 flag reads, so once the
flag is set no probe beyond the in-flight iteration happens and the
termination latency is bounded by one iteration (its probe plus the
0.5 second sleep), never unbounded. -/
theorem c8_shutdown_bounded_latency (flag : Nat → Bool) (fuel k : Nat)
    (hk : flag k = true) :
    probeCount (Service.update_loop flag fuel 0) ≤ k ∧
    flagCheckCount (Service.update_loop flag fuel 0) ≤ k + 1 := by
  constructor
  · have h := probeCount_update_loop_le flag fuel 0 k (Nat.zero_le k) hk
    simpa using h
  · have h := flagCheckCount_update_loop_le flag fuel 0 k (Nat.zero_le k) hk
    simpa using h

/-- Witness for claim C8: with the shutdown flag raised from iteration
2 on, a run with fuel 10 performs at most 2 probes and 3 flag reads. -/
theorem c8_shutdown_bounded_latency_witness :
    probeCount (Service.update_loop (fun n => decide (2 ≤ n)) 10 0) ≤ 2 ∧
    flagCheckCount (Service.update_loop (fun n => decide (2 ≤ n)) 10 0) ≤ 3 :=
  c8_shutdown_bounded_latency (fun n => decide (2 ≤ n)) 10 2 (by decide)

/-- Claim C9 (confirmed): the constructor creates the update thread but
never starts it, so a fresh Service has no live worker; the worker is
started only through _check_thread (reached via the accessors), which
starts a thread exactly when none is alive, and when one is alive it
returns true without waiting on the rendezvous. -/
theorem c9_lazy_start (name : String) (env : CheckEnv) :
    (Service.init name).threadStarted = false ∧
    (env.threadAlive = true →
      (Service.check_thread env).1 = true ∧
      SyncEvent.threadStart ∉ (Service.check_thread env).2 ∧
      SyncEvent.barrierWait 2 ∉ (Service.check_thread env).2) ∧
    (env.threadAlive = false →
      SyncEvent.threadStart ∈ (Service.check_thread env).2) := by
  rcases env with ⟨l, a, b⟩
  exact ⟨rfl, by cases l <;> cases a <;> cases b <;> decide,
    by cases l <;> cases a <;> cases b <;> decide⟩

/-- Witness for claim C9: a freshly constructed service has an
unstarted worker; with a live worker _check_thread succeeds without
starting one, and with a dead worker it starts one. -/
theorem c9_lazy_start_witness :
    (Service.init "nginx").threadStarted = false ∧
    (Service.check_thread (CheckEnv.mk true true true)).1 = true ∧
    SyncEvent.threadStart ∈ (Service.check_thread (CheckEnv.mk true false true)).2 :=
  ⟨(c9_lazy_start "nginx" (CheckEnv.mk true true true)).1,
   ((c9_lazy_start "nginx" (CheckEnv.mk true true true)).2.1 rfl).1,
   (c9_lazy_start "nginx" (CheckEnv.mk true false true)).2.2 rfl⟩
